import Mathlib

/-!
Verification of the casni cluster task-execution core against its design
specification.  The Python sources `casni/api/executor.py` (work-unit model
and the `NIPexec` dispatcher) and `casni/api/swarm.py` (node registry,
remote-unit proxy and cluster manager) are shallowly embedded below:
pure fragments become Lean functions, the dispatcher control loop becomes a
recursion over the finite list of dequeued items, the cluster manager
becomes an explicit state-transition function over a platform environment,
and Python exceptions become explicit error outcomes.
-/

namespace Casni

/-! ## Work-unit model (`executor.py`)

A Python callable is modelled by its observable behaviour when invoked:
it either returns a value or raises an exception (identified by a string).
`Task.function` may be a coroutine function (`asyncio.iscoroutinefunction`
true), a plain callable, or neither — the dispatch key used by
`NIPexec._event_loop`.  `Task.partial` merely binds `args`/`kwargs` to the
function, so the bound arguments are folded into the behaviour here. -/

inductive Func where
  | coro (r : Except String Int)
  | sync (r : Except String Int)
  | notCallable

/-- The `Task` dataclass of `executor.py` (behaviourally: just its function). -/
structure Task where
  function : Func

/-- A Python value that can travel through the dispatcher queue:
a `Task`, a `Terminator`, a string, an integer, or a list. -/
inductive Item where
  | task (t : Task)
  | terminator
  | str (s : String)
  | int (n : Int)
  | list (l : List Item)

/-- The `Output` dataclass.  In `_event_loop` the `task` field is filled with
whatever item was dequeued (the annotation `task: Task` is not enforced by
Python), and `returned` with the current value of the local `future`. -/
structure Output where
  task : Item
  returned : Int

/-- `is_list_of_tasks` from `executor.py`: a list all of whose elements are
`Task` instances (`False` for anything that is not a list). -/
def is_list_of_tasks : Item → Bool
  | .list l => l.all fun i => match i with | .task _ => true | _ => false
  | _ => false

/-- `isinstance(item, Task)`. -/
def isTaskInstance : Item → Bool
  | .task _ => true
  | _ => false

/-! ## The `NIPexec._event_loop` control loop

```python
while True:
    task = await self._queue.get()
    if isinstance(task, str) and task == "stop":
        break
    elif isinstance(task, Task):
        if asyncio.iscoroutinefunction(task.function):
            future = await asyncio.wrap_future(self._exec_coroutine(task.partial()))
        elif callable(task.function):
            future = await self.loop.run_in_executor(self.executor, task.partial())
    else:
        print(f"Invalid task: ...", file=sys.stderr)
    self.history.append(Output(task=task, returned=future))
```

Both `await`s re-raise any exception raised by the task's function, and the
loop body has no exception handler, so a raising task terminates the loop
coroutine.  The `history.append` line runs for every dequeued item other
than the `"stop"` sentinel; when it runs before any assignment to `future`
it raises `UnboundLocalError`, and for a non-`Task` item it records the
`future` left over from the previously executed task. -/

/-- Result of one iteration of the loop body on a dequeued item, given the
current value of the local variable `future` (`none` = not yet assigned). -/
inductive StepRes where
  | exit
  | crash (e : String)
  | next (out : Output) (fut : Option Int)

def loopStep (item : Item) (fut : Option Int) : StepRes :=
  match item with
  | .str s =>
    if s == "stop" then .exit
    else
      match fut with
      | none => .crash "UnboundLocalError"
      | some v => .next ⟨item, v⟩ fut
  | .task t =>
    match t.function with
    | .coro r | .sync r =>
      match r with
      | .ok v => .next ⟨item, v⟩ (some v)
      | .error e => .crash e
    | .notCallable =>
      match fut with
      | none => .crash "UnboundLocalError"
      | some v => .next ⟨item, v⟩ fut
  | _ =>
    match fut with
    | none => .crash "UnboundLocalError"
    | some v => .next ⟨item, v⟩ fut

/-- Final observable state of the loop coroutine: the `history` list and,
when the coroutine was terminated by an uncaught exception, its name. -/
structure LoopResult where
  history : List Output
  error : Option String

/-- `_event_loop` run over the finite sequence of items dequeued from the
queue; the empty-queue case is the state after the queue has drained (the
real loop then blocks in `queue.get()`). -/
def eventLoop : List Item → List Output → Option Int → LoopResult
  | [], hist, _ => ⟨hist, none⟩
  | item :: rest, hist, fut =>
    match loopStep item fut with
    | .exit => ⟨hist, none⟩
    | .crash e => ⟨hist, some e⟩
    | .next out fut2 => eventLoop rest (hist ++ [out]) fut2

/-! ## `NIPexec.submit`

```python
if isinstance(task, Task):
    task = [task]
elif is_list_of_tasks(task):
    pass
elif isinstance(task, Terminator):
    task = ["stop"]
for t in task:
    self._exec_coroutine(self._queue.put(t))
```

There is no final `else`: any other argument reaches the `for` loop as-is,
so Python iterates over it (a string yields its characters one by one; a
non-iterable raises `TypeError` before anything is enqueued). -/

/-- Python iteration `for t in x` collected into the list of enqueued
elements: lists yield their elements, strings their characters (as
one-character strings); other values in our universe are not iterable. -/
def pyIter : Item → Except String (List Item)
  | .list l => .ok l
  | .str s => .ok (s.toList.map fun c => Item.str c.toString)
  | _ => .error "TypeError"

/-- `NIPexec.submit`: the list of items enqueued, or the exception raised. -/
def submit (item : Item) : Except String (List Item) :=
  let item2 :=
    if isTaskInstance item then Item.list [item]
    else if is_list_of_tasks item then item
    else
      match item with
      | .terminator => Item.list [Item.str "stop"]
      | _ => item
  pyIter item2

/-! ## Node registry (`swarm.py`, `Node` / `Manager.is_installed`)

A node's docker client is `None` until the registry resolves connectivity;
accessing `.images` on `None` raises `AttributeError`.  A client exposes
`images.list()`, modelled by the list of per-image tag lists
(`[img.tags for img in ...]`), each tag a string of the form `name:tag`. -/

structure DockerClientM where
  imageTags : List (List String)
  deriving Repr, DecidableEq

structure NodeM where
  id : String
  client : Option DockerClientM
  deriving Repr, DecidableEq

/-- Python `s.split(sep)` for a one-character separator, over the character
list: split at every occurrence, keeping empty fields. -/
def splitCharsOn (sep : Char) : List Char → List (List Char)
  | [] => [[]]
  | c :: rest =>
    match splitCharsOn sep rest with
    | [] => [[c]]
    | g :: gs => if c == sep then [] :: g :: gs else (c :: g) :: gs

/-- Python `s.split(':')` as a list of strings. -/
def pySplit (s : String) (sep : Char) : List String :=
  (splitCharsOn sep s.toList).map fun l => String.mk l

/-- Python tuple unpacking `a, b = s.split(':')`: succeeds exactly when the
split has two parts, otherwise raises `ValueError`. -/
def splitUnpack2 (s : String) : Except String (String × String) :=
  match pySplit s ':' with
  | [a, b] => .ok (a, b)
  | _ => .error "ValueError"

/-- Python truthiness of an optional string (`None` and `""` are falsy). -/
def truthyStr : Option String → Bool
  | none => false
  | some s => !(s == "")

/-- The inner loop of `Node.is_installed` over one image's tag list:

```python
for img_string in img_list:
    img_name, img_tag = img_string.split(':')
    if img_name == search_name:
        if search_tag:
            if img_tag == search_tag:
                return True
        return True
```

Note the trailing `return True` is reached whenever the name matches,
whether or not the given tag matches. -/
def scanImages (search_name : String) (search_tag : Option String) :
    List String → Except String Bool
  | [] => .ok false
  | img_string :: rest =>
    match splitUnpack2 img_string with
    | .error e => .error e
    | .ok (img_name, img_tag) =>
      if img_name == search_name then
        if truthyStr search_tag then
          if some img_tag == search_tag then .ok true
          else .ok true
        else .ok true
      else scanImages search_name search_tag rest

/-- The outer loop of `Node.is_installed` (`for img_list in installed`). -/
def scanImageLists (search_name : String) (search_tag : Option String) :
    List (List String) → Except String Bool
  | [] => .ok false
  | img_list :: rest =>
    match scanImages search_name search_tag img_list with
    | .error e => .error e
    | .ok true => .ok true
    | .ok false => scanImageLists search_name search_tag rest

/-- `Node.is_installed(name, tag)`. -/
def node_is_installed (node : NodeM) (name : String) (tag : Option String) :
    Except String Bool :=
  match node.client with
  | none => .error "AttributeError"
  | some client =>
    match (if name.toList.contains ':' then
             (splitUnpack2 name).map fun p => (p.1, some p.2)
           else .ok (name, tag)) with
    | .error e => .error e
    | .ok (search_name, search_tag) =>
      scanImageLists search_name search_tag client.imageTags

/-- `Manager.is_installed(name, tag)`:

```python
if ':' in name:
    label, tag = name.split(':')
else:
    label = name
    if not tag:
        tag = 'latest'
return all([n.is_installed(label, tag) for n in self.nodes])
```

The list comprehension evaluates `is_installed` on every registry node, so
any node-level exception propagates to the caller. -/
def manager_is_installed (nodes : List NodeM) (name : String)
    (tag : Option String) : Except String Bool :=
  match (if name.toList.contains ':' then
           (splitUnpack2 name).map fun p => (p.1, some p.2)
         else .ok (name, if truthyStr tag then tag else some "latest")) with
  | .error e => .error e
  | .ok (label, tag2) =>
    match nodes.mapM (fun n => node_is_installed n label tag2) with
    | .error e => .error e
    | .ok results => .ok (results.all id)

/-! ## Remote-unit proxy (`swarm.py`, `Container`)

`Container.idle` re-fetches the process-name list and compares it with the
snapshot stored by `set_idle`:

```python
processes = self.fetch_processes()
if self._processes == processes:
    return True
else:
    return False
``` -/

/-- `Container.idle` as a function of the stored snapshot and the freshly
fetched process list. -/
def container_idle (stored fetched : List String) : Bool :=
  if stored == fetched then true else false

/-! ## `calc_system_usage` (`swarm.py`)

Two docker stats samples are taken; the relevant fields are modelled over
`ℚ` (the idealised arithmetic of the Python computation). -/

structure CpuStats where
  total_usage : ℚ
  system_cpu_usage : ℚ
  online_cpus : ℚ
  deriving Repr, DecidableEq

structure MemoryStats where
  usage : ℚ
  limit : ℚ
  deriving Repr, DecidableEq

/-- `calc_system_usage`: cpu-usage percent and memory-usage percent. -/
def calc_system_usage (pre pst : CpuStats) (mem : MemoryStats) : ℚ × ℚ :=
  let num_cpus := pre.online_cpus
  let delta_total := pst.total_usage - pre.total_usage
  let delta_system := pst.system_cpu_usage - pre.system_cpu_usage
  (delta_total / delta_system * num_cpus * 100,
   mem.usage / mem.limit * 100)

/-! ## Cluster manager (`swarm.py`, `Manager`)

`Manager` state: the optional service handle, the bound containers, the
node registry, the manager-level volumes and the service mode set by
`set_num_workers` (`Some n` = replicated mode with `n` replicas). -/

structure ContainerM where
  id : String
  ip : String
  deriving Repr, DecidableEq

structure MState where
  nodes : List NodeM
  service : Option String
  containers : List ContainerM
  volumes : Option (List (String × String))
  mode : Option Nat
  deriving Repr, DecidableEq

/-- Externally observable side effects of manager operations. -/
inductive Effect where
  | stopDispatcher (id : String)
  | stopContainerObj (id : String)
  | removeServiceHandle
  | removeBackground (name : String)
  | createRequest (image name : String) (mode : Option Nat)
      (mounts : Option (List (String × String)))
  deriving Repr, DecidableEq

/-- Python truthiness of an optional integer (`None` and `0` are falsy). -/
def truthyNat : Option Nat → Bool
  | none => false
  | some n => !(n == 0)

/-- `set_num_workers(n_workers)`. -/
def set_num_workers (st : MState) (n_workers : Option Nat) : MState :=
  { st with mode := if truthyNat n_workers then n_workers else none }

/-- `Manager.__init__(n_workers, path)` (node registry as discovered). -/
def manager_init (nodes : List NodeM) (n_workers : Option Nat)
    (path : Option String) : MState :=
  set_num_workers
    { nodes := nodes, service := none, containers := [],
      volumes := (match path with | some p => some [(p, p)] | none => none),
      mode := none } n_workers

/-- `Container.stop()`: stop the owned dispatcher, then the platform
container object. -/
def container_stop (c : ContainerM) : List Effect :=
  [Effect.stopDispatcher c.id, Effect.stopContainerObj c.id]

/-- The effects of the `if self.containers:` block of
`Manager.remove_service` (stop every bound container, in list order). -/
def remove_service_stops (st : MState) : List Effect :=
  if st.containers.isEmpty then []
  else (st.containers.map container_stop).flatten

/-- The effects of the `if self.service:` block (remove the platform
service handle). -/
def remove_service_removes (st : MState) : List Effect :=
  if st.service.isSome then [Effect.removeServiceHandle] else []

/-- `Manager.remove_service()`:

```python
if self.containers:
    for c in self.containers:
        c.stop()
    self.containers.clear()
if self.service:
    self.service.remove()
self.service = None
``` -/
def remove_service (st : MState) : MState × List Effect :=
  ({ st with containers := [], service := none },
   remove_service_stops st ++ remove_service_removes st)

/-- The service-task descriptors returned by `service.tasks()`:
`t['Status']['State']`, `t['Status']['Err']`, `t['NodeID']`, and
`t['Status']['ContainerStatus']['ContainerID']` when the `ContainerStatus`
key is present. -/
structure TaskInfo where
  state : String
  err : String
  nodeID : String
  containerID : Option String
  deriving Repr, DecidableEq

/-- The cluster platform as observed by one `create_service` call:
`snapshots i` is the result of the `i`-th call to `service.tasks()`,
`nodeAddr` resolves `client.nodes.get(id).attrs['Status']['Addr']`, and
`newService` is the handle returned by `client.services.create`. -/
structure PlatformEnv where
  snapshots : Nat → List TaskInfo
  nodeAddr : String → String
  newService : String

/-- The assignment-wait loop: fetch `service.tasks()`; while any task is in
the `"assigned"` state, sleep and re-fetch.  `fuel` bounds the number of
fetches; the result is the cursor of the next unconsumed snapshot (`none`
models the unbounded busy-wait never exiting within `fuel` polls). -/
def waitAssign (fetch : Nat → List TaskInfo) : Nat → Nat → Option Nat
  | _, 0 => none
  | c, fuel + 1 =>
    if ((fetch c).filter fun t => t.state == "assigned").isEmpty then some (c + 1)
    else waitAssign fetch (c + 1) fuel

/-- The activation-wait loop: while fewer tasks have a `ContainerStatus`
than there are tasks, sleep and re-fetch. -/
def waitActive (fetch : Nat → List TaskInfo) : Nat → Nat → Option Nat
  | _, 0 => none
  | c, fuel + 1 =>
    let tasks := fetch c
    if ((tasks.filter fun t => t.containerID.isSome).length < tasks.length) then
      waitActive fetch (c + 1) fuel
    else some (c + 1)

/-- The binding loop of `create_service`: for each platform task, read its
container id (`KeyError` when `ContainerStatus` is absent in this fresh
snapshot), look the node up in the registry, and when the node is present
with a live client, construct the `Container` and append it.  The partially
appended list survives a `KeyError` (the flag is `false` then). -/
def bindLoop (nodes : List NodeM) (nodeAddr : String → String) :
    List TaskInfo → List ContainerM → List ContainerM × Bool
  | [], acc => (acc, true)
  | t :: rest, acc =>
    let node_ip := nodeAddr t.nodeID
    match t.containerID with
    | none => (acc, false)
    | some cont_id =>
      match nodes.filter (fun n => n.id == t.nodeID) with
      | [] => bindLoop nodes nodeAddr rest acc
      | n :: _ =>
        match n.client with
        | none => bindLoop nodes nodeAddr rest acc
        | some _ => bindLoop nodes nodeAddr rest (acc ++ [⟨cont_id, node_ip⟩])

/-- Outcome of a `create_service` call. -/
inductive SvcOutcome where
  | ok
  | attributeError
  | rejected (err : String)
  | keyError
  | diverged
  deriving Repr, DecidableEq

/-- `Manager.create_service(image, name, n_workers, volumes)`, returning the
manager state left behind, the trace of platform effects, and the outcome.
The line `self.set_num_containers(n_workers)` calls a method that does not
exist anywhere in the class (only `set_num_workers` is defined), so a
truthy `n_workers` raises `AttributeError` before any platform request.
The idle-settling busy-wait on each freshly bound container mutates only
that container's stored snapshot and is modelled as terminating. -/
def create_service (st0 : MState) (env : PlatformEnv) (image name : String)
    (n_workers : Option Nat) (volumes : Option (List (String × String)))
    (fuel : Nat) : MState × List Effect × SvcOutcome :=
  let p1 := if st0.service.isSome then remove_service st0 else (st0, [])
  let st1 := p1.1
  let evs0 := p1.2 ++ [Effect.removeBackground name]
  if truthyNat n_workers then
    (st1, evs0, SvcOutcome.attributeError)
  else
    let managerMounts := match st1.volumes with | some vs => vs | none => []
    let callMounts := match volumes with | some vs => vs | none => []
    let mountList := managerMounts ++ callMounts
    let mounts := if mountList.isEmpty then none else some mountList
    let st2 := { st1 with service := some env.newService, containers := [] }
    let evs1 := evs0 ++ [Effect.createRequest image name st1.mode mounts]
    match waitAssign env.snapshots 0 fuel with
    | none => (st2, evs1, SvcOutcome.diverged)
    | some c1 =>
      let errs := ((env.snapshots c1).filter fun t => t.state == "rejected").map
        fun t => t.err
      match errs with
      | e :: _ => (st2, evs1, SvcOutcome.rejected e)
      | [] =>
        match waitActive env.snapshots (c1 + 1) fuel with
        | none => (st2, evs1, SvcOutcome.diverged)
        | some c2 =>
          let res := bindLoop st2.nodes env.nodeAddr (env.snapshots c2) []
          ({ st2 with containers := res.1 }, evs1,
            if res.2 then SvcOutcome.ok else SvcOutcome.keyError)

/-- The cluster-manager state invariant: bound containers exist only while
the service handle is non-null. -/
def managerInv (st : MState) : Prop :=
  st.containers ≠ [] → st.service.isSome = true

/-! ## Theorems -/

/-- Claim C1: the spec says a drained dispatcher queue leaves exactly one
`Output` per valid `Task` and none for invalid items.  The code appends an
`Output` for every dequeued non-sentinel item: after the valid task
(returning `1`) and the invalid item `5` are dequeued, `history` holds two
entries, the second recording the invalid item with the stale `future` of
the preceding task. -/
theorem C1_invalid_item_recorded_in_history :
    submit (Item.list [Item.task ⟨Func.sync (Except.ok 1)⟩, Item.int 5]) =
      Except.ok [Item.task ⟨Func.sync (Except.ok 1)⟩, Item.int 5] ∧
    eventLoop [Item.task ⟨Func.sync (Except.ok 1)⟩, Item.int 5] [] none =
      ⟨[⟨Item.task ⟨Func.sync (Except.ok 1)⟩, 1⟩, ⟨Item.int 5, 1⟩], none⟩ :=
  ⟨rfl, rfl⟩

/-- Claim C2 counterexample: with a first task whose function raises
`"boom"` and a second well-behaved task queued, the loop coroutine dies
with the uncaught exception, `history` stays empty (the error is not
captured in any `Output`), and the second task is never executed —
contradicting the claim that the exception is captured as the Output's
`returned` value and that the loop continues. -/
theorem C2_counterexample_exception_not_captured :
    eventLoop [Item.task ⟨Func.sync (Except.error "boom")⟩,
               Item.task ⟨Func.sync (Except.ok 2)⟩] [] none =
      ⟨[], some "boom"⟩ :=
  rfl

/-- Claim C2 (amended): a `Task` whose function raises terminates the
control loop with that exception — the body of `_event_loop` has no
exception handler, both `await`s re-raise.  No `Output` is appended for the
failing task and no subsequently queued item is dequeued or executed. -/
theorem C2_amended_task_exception_kills_loop (t : Task) (e : String)
    (rest : List Item) (hist : List Output) (fut : Option Int)
    (hf : t.function = Func.sync (Except.error e) ∨
          t.function = Func.coro (Except.error e)) :
    eventLoop (Item.task t :: rest) hist fut = ⟨hist, some e⟩ := by
  rcases hf with hf | hf <;> simp [eventLoop, loopStep, hf]

/-- Witness for the amended C2 theorem at a concrete raising task. -/
theorem C2_amended_witness :
    eventLoop [Item.task ⟨Func.sync (Except.error "x")⟩] [] none =
      ⟨[], some "x"⟩ :=
  C2_amended_task_exception_kills_loop ⟨Func.sync (Except.error "x")⟩ "x"
    [] [] none (Or.inl rfl)

/-- Claim C6: submitting a `Terminator` enqueues the `"stop"` sentinel;
when the loop dequeues the sentinel it exits at once, and the items still
queued behind the sentinel influence neither the history nor the loop's
outcome (they are never executed or recorded). -/
theorem C6_stop_sentinel_halts_loop (l1 l2 : List Item) (hist : List Output)
    (fut : Option Int) :
    submit Item.terminator = Except.ok [Item.str "stop"] ∧
    eventLoop (Item.str "stop" :: l2) hist fut = ⟨hist, none⟩ ∧
    eventLoop (l1 ++ Item.str "stop" :: l2) hist fut =
      eventLoop (l1 ++ [Item.str "stop"]) hist fut := by
  refine ⟨rfl, rfl, ?_⟩
  induction l1 generalizing hist fut with
  | nil => rfl
  | cons a l1 ih =>
    simp only [List.cons_append, eventLoop]
    cases loopStep a fut with
    | exit => rfl
    | crash e => rfl
    | next out fut2 => exact ih _ _

/-- Claim C8: `Container.idle` is a pure function of the stored baseline
snapshot and the freshly fetched process list, true exactly on identical
snapshots: equal snapshots give `true`, and a baseline extended by one new
process entry gives `false`. -/
theorem C8_idle_pure_snapshot_diff (a : List String) (p : String) :
    container_idle a a = true ∧ container_idle a (a ++ [p]) = false := by
  constructor
  · simp [container_idle]
  · have hne : a ≠ a ++ [p] := by
      intro h
      have := congrArg List.length h
      simp at this
    simp [container_idle, hne]

/-- Claim C10: when the argument of `NIPexec.submit` is neither a `Task`,
nor a list of `Task`s, nor a `Terminator`, the untouched argument reaches
the `for` loop: a list has every element enqueued individually, a string is
enqueued character by character, and a non-iterable raises `TypeError`
with nothing enqueued. -/
theorem C10_submit_fallthrough_iteration (it : Item)
    (h1 : isTaskInstance it = false) (h2 : is_list_of_tasks it = false)
    (h3 : it ≠ Item.terminator) :
    submit it = pyIter it ∧
    (∀ l, it = Item.list l → submit it = Except.ok l) ∧
    (∀ s, it = Item.str s →
      submit it = Except.ok (s.toList.map fun c => Item.str c.toString)) ∧
    (∀ n, it = Item.int n → submit it = Except.error "TypeError") := by
  have hmain : submit it = pyIter it := by
    cases it with
    | terminator => exact absurd rfl h3
    | task t => simp [isTaskInstance] at h1
    | str s => simp [submit, isTaskInstance, is_list_of_tasks]
    | int n => simp [submit, isTaskInstance, is_list_of_tasks]
    | list l => simp [submit, isTaskInstance, h2]
  refine ⟨hmain, ?_, ?_, ?_⟩
  · intro l hl
    subst hl
    exact hmain
  · intro s hs
    subst hs
    exact hmain
  · intro n hn
    subst hn
    exact hmain

/-- Witness for C10 at a string argument and at a non-iterable argument. -/
theorem C10_witness :
    submit (Item.str "ab") = pyIter (Item.str "ab") ∧
    submit (Item.int 7) = Except.error "TypeError" :=
  ⟨(C10_submit_fallthrough_iteration (Item.str "ab") rfl rfl
      (fun h => Item.noConfusion h)).1,
   (C10_submit_fallthrough_iteration (Item.int 7) rfl rfl
      (fun h => Item.noConfusion h)).2.2.2 7 rfl⟩

/-- Claim C9: for well-formed stats samples (non-negative counter deltas,
busy-time delta at most total-time delta and positive, memory usage within
the positive limit, non-negative online-cpu count), `calc_system_usage`
yields a cpu percentage in `[0, 100 * online_cpus]` and a memory
percentage in `[0, 100]`. -/
theorem C9_usage_bounds (pre pst : CpuStats) (mem : MemoryStats)
    (hdt : 0 ≤ pst.total_usage - pre.total_usage)
    (hds : pst.total_usage - pre.total_usage ≤
           pst.system_cpu_usage - pre.system_cpu_usage)
    (hpos : 0 < pst.system_cpu_usage - pre.system_cpu_usage)
    (hcpu : 0 ≤ pre.online_cpus)
    (hmu : 0 ≤ mem.usage) (hml : mem.usage ≤ mem.limit)
    (hlim : 0 < mem.limit) :
    0 ≤ (calc_system_usage pre pst mem).1 ∧
    (calc_system_usage pre pst mem).1 ≤ 100 * pre.online_cpus ∧
    0 ≤ (calc_system_usage pre pst mem).2 ∧
    (calc_system_usage pre pst mem).2 ≤ 100 := by
  have hq0 : 0 ≤ (pst.total_usage - pre.total_usage) /
      (pst.system_cpu_usage - pre.system_cpu_usage) := div_nonneg hdt hpos.le
  have hq1 : (pst.total_usage - pre.total_usage) /
      (pst.system_cpu_usage - pre.system_cpu_usage) ≤ 1 :=
    (div_le_one hpos).mpr hds
  have hm0 : 0 ≤ mem.usage / mem.limit := div_nonneg hmu hlim.le
  have hm1 : mem.usage / mem.limit ≤ 1 := (div_le_one hlim).mpr hml
  refine ⟨?_, ?_, ?_, ?_⟩ <;> simp only [calc_system_usage]
  · exact mul_nonneg (mul_nonneg hq0 hcpu) (by norm_num)
  · nlinarith [mul_le_mul_of_nonneg_right hq1 hcpu]
  · exact mul_nonneg hm0 (by norm_num)
  · nlinarith [hm1]

/-- Witness for C9 at concrete samples: busy delta 5 of total delta 10,
two online cpus, memory 1 of limit 2. -/
theorem C9_witness :
    0 ≤ (calc_system_usage ⟨0, 0, 2⟩ ⟨5, 10, 2⟩ ⟨1, 2⟩).1 ∧
    (calc_system_usage ⟨0, 0, 2⟩ ⟨5, 10, 2⟩ ⟨1, 2⟩).1 ≤
      100 * (⟨0, 0, 2⟩ : CpuStats).online_cpus ∧
    0 ≤ (calc_system_usage ⟨0, 0, 2⟩ ⟨5, 10, 2⟩ ⟨1, 2⟩).2 ∧
    (calc_system_usage ⟨0, 0, 2⟩ ⟨5, 10, 2⟩ ⟨1, 2⟩).2 ≤ 100 :=
  C9_usage_bounds ⟨0, 0, 2⟩ ⟨5, 10, 2⟩ ⟨1, 2⟩ (by norm_num) (by norm_num)
    (by norm_num) (by norm_num) (by norm_num) (by norm_num) (by norm_num)

/-- Claim C5: the spec requires a given tag to match.  In
`Node.is_installed` the trailing `return True` fires on any repository-name
match whether or not the tag matches, so a manager whose single reachable
node has only `ubuntu:18.04` installed still reports `ubuntu` with tag
`20.04` as installed. -/
theorem C5_tag_mismatch_reports_installed :
    manager_is_installed [⟨"node-1", some ⟨[["ubuntu:18.04"]]⟩⟩]
      "ubuntu" (some "20.04") = Except.ok true :=
  rfl

/-- Claim C4: `create_service` with an explicit replica count never reaches
the platform: the truthy `n_workers` branch calls the undefined method
`set_num_containers` (only `set_num_workers` exists), raising
`AttributeError` with no `createRequest` in the effect trace. -/
theorem C4_explicit_replicas_raise_attribute_error :
    create_service (manager_init [] none none)
      ⟨fun _ => [], fun _ => "", "svc-handle"⟩ "img" "svc" (some 3) none 3 =
      (manager_init [] none none, [Effect.removeBackground "svc"],
        SvcOutcome.attributeError) :=
  rfl

/-- Claim C3: when, after the assignment-wait phase, the fresh task
snapshot contains a rejected task, `create_service` fails with the first
platform-reported error message and the manager's `containers` list is
empty at that point — `self.containers = []` was executed right after the
creation request and nothing has been appended yet. -/
theorem C3_rejection_is_fatal_with_no_partial_binding
    (st0 : MState) (env : PlatformEnv) (image name : String)
    (volumes : Option (List (String × String))) (fuel c1 : Nat)
    (e : String) (es : List String)
    (hw : waitAssign env.snapshots 0 fuel = some c1)
    (he : ((env.snapshots c1).filter fun t => t.state == "rejected").map
        (fun t => t.err) = e :: es) :
    (create_service st0 env image name none volumes fuel).2.2 =
      SvcOutcome.rejected e ∧
    (create_service st0 env image name none volumes fuel).1.containers = [] := by
  simp only [create_service, truthyNat, hw, he]
  simp

/-- Witness for C3: a platform whose one task is rejected with error
`"boom"` makes `create_service` fail with that message and bind nothing. -/
theorem C3_witness :
    (create_service (manager_init [] none none)
      ⟨fun _ => [⟨"rejected", "boom", "n1", none⟩], fun _ => "", "svc-handle"⟩
      "img" "svc" none none 1).2.2 = SvcOutcome.rejected "boom" ∧
    (create_service (manager_init [] none none)
      ⟨fun _ => [⟨"rejected", "boom", "n1", none⟩], fun _ => "", "svc-handle"⟩
      "img" "svc" none none 1).1.containers = [] :=
  C3_rejection_is_fatal_with_no_partial_binding (manager_init [] none none)
    ⟨fun _ => [⟨"rejected", "boom", "n1", none⟩], fun _ => "", "svc-handle"⟩
    "img" "svc" none 1 1 "boom" [] rfl rfl

/-- A successful lookup in a list concatenation at an index inside the left
part lands in the left part. -/
lemma get?_append_mem_left {α : Type} {A B : List α} {i : Nat} {x : α}
    (h : (A ++ B).get? i = some x) (hi : i < A.length) : x ∈ A := by
  rw [List.get?_append hi] at h
  exact List.get?_mem h

/-- A successful lookup in a list concatenation at an index past the left
part lands in the right part. -/
lemma get?_append_mem_right {α : Type} {A B : List α} {i : Nat} {x : α}
    (h : (A ++ B).get? i = some x) (hi : A.length ≤ i) : x ∈ B := by
  rw [List.get?_append_right hi] at h
  exact List.get?_mem h

/-- Every effect in the container-stopping phase of `remove_service` is a
stop effect, never the service-handle removal. -/
lemma stop_part_not_remove (st : MState) (e : Effect)
    (he : e ∈ remove_service_stops st) : e ≠ Effect.removeServiceHandle := by
  by_cases h : st.containers.isEmpty
  · simp [remove_service_stops, h] at he
  · simp only [remove_service_stops, h, Bool.false_eq_true, if_false] at he
    rw [List.mem_flatten] at he
    obtain ⟨l, hl, hel⟩ := he
    rw [List.mem_map] at hl
    obtain ⟨c, _, rfl⟩ := hl
    simp only [container_stop, List.mem_cons, List.not_mem_nil, or_false] at hel
    rcases hel with rfl | rfl <;> simp

/-- Every effect in the service-removal phase of `remove_service` is the
service-handle removal, never a dispatcher stop. -/
lemma remove_part_not_stop (st : MState) (e : Effect)
    (he : e ∈ remove_service_removes st) :
    ∀ c, e ≠ Effect.stopDispatcher c := by
  intro c
  by_cases h : st.service.isSome
  · simp only [remove_service_removes, h, if_true, List.mem_singleton] at he
    subst he
    simp
  · simp [remove_service_removes, h] at he

/-- Claim C7: the cluster-manager invariant — bound containers exist only
while the service handle is non-null — holds after construction and is
preserved by `create_service` (whatever its outcome) and by
`remove_service`; moreover in the `remove_service` effect trace every
dispatcher-stop effect precedes the removal of the platform service
handle. -/
theorem C7_manager_state_invariant :
    (∀ nodes n_workers path, managerInv (manager_init nodes n_workers path)) ∧
    (∀ st env image name n_workers volumes fuel, managerInv st →
      managerInv (create_service st env image name n_workers volumes fuel).1) ∧
    (∀ st, managerInv st → managerInv (remove_service st).1) ∧
    (∀ st (i j : Nat) (cid : String),
      (remove_service st).2.get? i = some (Effect.stopDispatcher cid) →
      (remove_service st).2.get? j = some Effect.removeServiceHandle →
      i < j) := by
  refine ⟨?_, ?_, ?_, ?_⟩
  · intro nodes n_workers path h
    simp [manager_init, set_num_workers] at h
  · intro st env image name n_workers volumes fuel hinv
    simp only [create_service]
    by_cases hnw : truthyNat n_workers = true
    · rw [if_pos hnw]
      by_cases hs : st.service.isSome = true
      · rw [if_pos hs]
        intro h
        simp [remove_service] at h
      · rw [if_neg hs]
        exact hinv
    · rw [if_neg hnw]
      split
      · simp [managerInv]
      · split
        · simp [managerInv]
        · split
          · simp [managerInv]
          · simp [managerInv]
  · intro st _ h
    simp [remove_service] at h
  · intro st i j cid hi hj
    have htr : (remove_service st).2 =
        remove_service_stops st ++ remove_service_removes st := rfl
    rw [htr] at hi hj
    by_cases h1 : i < (remove_service_stops st).length
    · by_cases h2 : j < (remove_service_stops st).length
      · exact absurd rfl (stop_part_not_remove st _ (get?_append_mem_left hj h2))
      · push_neg at h2
        omega
    · push_neg at h1
      exact absurd rfl
        (remove_part_not_stop st _ (get?_append_mem_right hi h1) cid)

/-- Witness for C7: the invariant holds for a fresh manager and is
preserved by `create_service` and `remove_service` on a concrete state
with one bound container; on that state the dispatcher-stop effect at
index 0 of the removal trace precedes the handle removal at index 2. -/
theorem C7_witness :
    managerInv (manager_init [] none none) ∧
    managerInv (create_service ⟨[], some "svc", [⟨"c1", "ip1"⟩], none, none⟩
      ⟨fun _ => [], fun _ => "", "svc2"⟩ "img" "svc" none none 1).1 ∧
    managerInv (remove_service ⟨[], some "svc", [⟨"c1", "ip1"⟩], none, none⟩).1 ∧
    (0 : Nat) < 2 :=
  ⟨C7_manager_state_invariant.1 [] none none,
   C7_manager_state_invariant.2.1 ⟨[], some "svc", [⟨"c1", "ip1"⟩], none, none⟩
     ⟨fun _ => [], fun _ => "", "svc2"⟩ "img" "svc" none none 1 (fun _ => rfl),
   C7_manager_state_invariant.2.2.1 ⟨[], some "svc", [⟨"c1", "ip1"⟩], none, none⟩
     (fun _ => rfl),
   C7_manager_state_invariant.2.2.2 ⟨[], some "svc", [⟨"c1", "ip1"⟩], none, none⟩
     0 2 "c1" rfl rfl⟩

end Casni
